import Mathlib

/-!
Verification of the content-diversity and topic-selection subsystem of the
healthyengland blog pipeline (the sora/utils modules: diversity_engine,
enhanced_duplicate_detection, smart_selector, topic_bank, content_calendar).

The Python code is shallowly embedded: the database-backed history store is
passed explicitly as a list of records together with the current time,
floating-point scores become exact rationals, and every random draw is fed
from an injected stream of picks (the spec itself requires seedable
randomness).  Timestamps are integer seconds; a timedelta of d days is
d * 86400 seconds.
-/

/-- A row of the GeneratedContent table, restricted to the fields the
diversity core reads (sora/models.py). -/
structure ContentRecord where
  title : String
  topic : String
  category : String
  topic_keywords : List String
  generated_at : Int
deriving DecidableEq, Repr

/-- Stop-word list of TopicDiversityEngine.extract_topic_keywords
(diversity_engine.py lines 113-119). -/
def stop_words : List String :=
  ["the", "a", "an", "and", "or", "but", "in", "on", "at", "to", "for",
   "of", "with", "by", "is", "are", "was", "were", "be", "been", "have",
   "has", "had", "do", "does", "did", "will", "would", "could", "should",
   "may", "might", "can", "this", "that", "these", "those", "i", "you",
   "he", "she", "it", "we", "they", "me", "him", "her", "us", "them"]

/-- Python regex word character for ASCII input: alphanumeric or underscore. -/
def isWordChar (c : Char) : Bool :=
  c.isAlphanum || c == '_'

/-- Splits a character list into the maximal runs of word characters,
mirroring re.findall of word runs over a lowercased string.  The second
argument accumulates the current (reversed) run. -/
def wordRunsAux : List Char → List Char → List String
  | [], [] => []
  | [], acc => [String.mk acc.reverse]
  | c :: cs, acc =>
    if isWordChar c then wordRunsAux cs (c :: acc)
    else if acc = [] then wordRunsAux cs []
    else String.mk acc.reverse :: wordRunsAux cs []

/-- Lowercased character sequence of a string (Python str.lower over ASCII). -/
def lowerChars (s : String) : List Char :=
  s.data.map Char.toLower

/-- TopicDiversityEngine.extract_topic_keywords (diversity_engine.py
lines 99-123): lowercase, split into word runs, drop stop words and words
of length at most 2. -/
def extract_topic_keywords (topic : String) : List String :=
  let words := wordRunsAux (lowerChars topic) []
  words.filter (fun w => decide (w ∉ stop_words ∧ 2 < w.length))

/-- TopicDiversityEngine.calculate_topic_similarity (diversity_engine.py
lines 125-146): Jaccard similarity of the two keyword sets, 0 when either
set is empty. -/
def calculate_topic_similarity (topic1 topic2 : String) : ℚ :=
  let keywords1 := (extract_topic_keywords topic1).toFinset
  let keywords2 := (extract_topic_keywords topic2).toFinset
  if keywords1 = ∅ ∨ keywords2 = ∅ then 0
  else
    let intersection := (keywords1 ∩ keywords2).card
    let union := (keywords1 ∪ keywords2).card
    if 0 < union then (intersection : ℚ) / union else 0

lemma calculate_topic_similarity_def (a b : String) :
    calculate_topic_similarity a b =
      if (extract_topic_keywords a).toFinset = ∅ ∨
          (extract_topic_keywords b).toFinset = ∅ then (0 : ℚ)
      else if 0 < ((extract_topic_keywords a).toFinset ∪
          (extract_topic_keywords b).toFinset).card then
        (((extract_topic_keywords a).toFinset ∩
            (extract_topic_keywords b).toFinset).card : ℚ) /
          (((extract_topic_keywords a).toFinset ∪
            (extract_topic_keywords b).toFinset).card : ℚ)
      else 0 :=
  rfl

lemma calculate_topic_similarity_nonneg (a b : String) :
    0 ≤ calculate_topic_similarity a b := by
  rw [calculate_topic_similarity_def]
  split
  · exact le_refl 0
  · split
    · positivity
    · exact le_refl 0

lemma calculate_topic_similarity_le_one (a b : String) :
    calculate_topic_similarity a b ≤ 1 := by
  rw [calculate_topic_similarity_def]
  split
  · exact zero_le_one
  · split
    · next hu =>
      rw [div_le_one (by exact_mod_cast hu)]
      exact_mod_cast Finset.card_le_card
        (Finset.inter_subset_union (s := (extract_topic_keywords a).toFinset)
          (t := (extract_topic_keywords b).toFinset))
    · exact zero_le_one

lemma calculate_topic_similarity_comm (a b : String) :
    calculate_topic_similarity a b = calculate_topic_similarity b a := by
  rw [calculate_topic_similarity_def, calculate_topic_similarity_def,
    Finset.inter_comm, Finset.union_comm]
  by_cases h1 : (extract_topic_keywords a).toFinset = ∅ <;>
    by_cases h2 : (extract_topic_keywords b).toFinset = ∅ <;>
    simp [h1, h2]

lemma calculate_topic_similarity_self (a : String)
    (h : extract_topic_keywords a ≠ []) :
    calculate_topic_similarity a a = 1 := by
  have hne : (extract_topic_keywords a).toFinset ≠ ∅ := by
    simpa [List.toFinset_eq_empty_iff] using h
  have hcard : 0 < (extract_topic_keywords a).toFinset.card :=
    Finset.card_pos.mpr (Finset.nonempty_of_ne_empty hne)
  rw [calculate_topic_similarity_def]
  simp only [Finset.inter_self, Finset.union_self]
  rw [if_neg (by simp [hne]), if_pos hcard]
  rw [div_self]
  exact_mod_cast hcard.ne.symm

/-- C1: the similarity primitive is Jaccard similarity over the extracted
keyword sets: it is symmetric, bounded in [0,1], zero when either keyword
set is empty, and 1 on a topic compared with itself whenever the topic has
at least one non-stop-word token of length > 2. -/
theorem similarity_jaccard_properties (a b : String) :
    calculate_topic_similarity a b = calculate_topic_similarity b a ∧
    0 ≤ calculate_topic_similarity a b ∧
    calculate_topic_similarity a b ≤ 1 ∧
    ((extract_topic_keywords a = [] ∨ extract_topic_keywords b = []) →
      calculate_topic_similarity a b = 0) ∧
    (extract_topic_keywords a ≠ [] → calculate_topic_similarity a a = 1) := by
  refine ⟨calculate_topic_similarity_comm a b,
    calculate_topic_similarity_nonneg a b,
    calculate_topic_similarity_le_one a b, ?_,
    calculate_topic_similarity_self a⟩
  intro h
  rw [calculate_topic_similarity_def, if_pos]
  rcases h with h | h
  · exact Or.inl (by simp [h])
  · exact Or.inr (by simp [h])

/-- Concrete instantiation of the C1 theorem: the implication hypotheses are
discharged at explicit topic strings. -/
theorem similarity_jaccard_properties_witness :
    calculate_topic_similarity "drink lemon water" "lemon water drink" =
      calculate_topic_similarity "lemon water drink" "drink lemon water" ∧
    extract_topic_keywords "drink lemon water" ≠ [] ∧
    calculate_topic_similarity "drink lemon water" "drink lemon water" = 1 := by
  refine ⟨(similarity_jaccard_properties "drink lemon water" "lemon water drink").1,
    by decide, ?_⟩
  exact (similarity_jaccard_properties "drink lemon water"
    "lemon water drink").2.2.2.2 (by decide)

/-- Category catalog with base weights, HEALTH_CATEGORIES of
TopicDiversityEngine (diversity_engine.py lines 20-31); the free-text
descriptions play no role in any computation and are dropped. -/
def HEALTH_CATEGORIES : List (String × Int) :=
  [("Nutrition", 8), ("Fitness", 7), ("Mental Health", 6), ("Sleep", 6),
   ("Hydration", 5), ("Skincare", 4), ("Wellness", 5), ("Digestive Health", 4),
   ("Immune System", 5), ("Weight Management", 4)]

/-- Number of records of the given category in a history window
(GeneratedContent.get_category_usage, and the per-category counting loops
of diversity_engine.py). -/
def usageCount (recent : List ContentRecord) (category : String) : Nat :=
  (recent.filter (fun c => decide (c.category = category))).length

/-- TopicDiversityEngine.get_category_weights (diversity_engine.py lines
37-63): base weight plus a bonus of max 0 (10 - recent usage). -/
def get_category_weights (recent : List ContentRecord) : List (String × Int) :=
  HEALTH_CATEGORIES.map
    (fun p => (p.1, p.2 + max 0 (10 - (usageCount recent p.1 : Int))))

lemma lookup_map_weights (l : List (String × Int)) (f : String → Int → Int)
    (cat : String) (b : Int) (hnd : (l.map Prod.fst).Nodup)
    (hmem : (cat, b) ∈ l) :
    (l.map (fun p => (p.1, f p.1 p.2))).lookup cat = some (f cat b) := by
  induction l with
  | nil => cases hmem
  | cons hd tl ih =>
    obtain ⟨c0, w0⟩ := hd
    simp only [List.map_cons, List.nodup_cons] at hnd
    rcases List.mem_cons.mp hmem with heq | htl
    · rw [Prod.mk.injEq] at heq
      obtain ⟨rfl, rfl⟩ := heq
      simp [List.lookup]
    · have hne : cat ≠ c0 := by
        intro h
        exact hnd.1 (h ▸ List.mem_map_of_mem Prod.fst htl)
      simp only [List.map_cons, List.lookup]
      rw [show (cat == c0) = false from beq_eq_false_iff_ne.mpr hne]
      exact ih hnd.2 htl

lemma health_categories_keys_nodup : (HEALTH_CATEGORIES.map Prod.fst).Nodup := by
  decide

lemma get_category_weights_lookup (recent : List ContentRecord) (cat : String)
    (b : Int) (hmem : (cat, b) ∈ HEALTH_CATEGORIES) :
    (get_category_weights recent).lookup cat =
      some (b + max 0 (10 - (usageCount recent cat : Int))) :=
  lookup_map_weights HEALTH_CATEGORIES
    (fun c w => w + max 0 (10 - (usageCount recent c : Int))) cat b
    health_categories_keys_nodup hmem

/-- C4: every defined category is weighted base + max 0 (10 - usage); with
equal bases, lower usage gives a weight at least as large; a category used
10 or more times gets exactly its base weight. -/
theorem category_weights_formula (recent : List ContentRecord)
    (cat1 cat2 : String) (b1 b2 : Int)
    (h1 : (cat1, b1) ∈ HEALTH_CATEGORIES) (h2 : (cat2, b2) ∈ HEALTH_CATEGORIES) :
    (get_category_weights recent).lookup cat1 =
      some (b1 + max 0 (10 - (usageCount recent cat1 : Int))) ∧
    (b1 = b2 → usageCount recent cat1 ≤ usageCount recent cat2 →
      ((get_category_weights recent).lookup cat2).getD 0 ≤
        ((get_category_weights recent).lookup cat1).getD 0) ∧
    (10 ≤ usageCount recent cat1 →
      (get_category_weights recent).lookup cat1 = some b1) := by
  refine ⟨get_category_weights_lookup recent cat1 b1 h1, ?_, ?_⟩
  · intro hb hu
    rw [get_category_weights_lookup recent cat1 b1 h1,
      get_category_weights_lookup recent cat2 b2 h2]
    simp only [Option.getD_some]
    have hcast : ((usageCount recent cat1 : Int)) ≤ (usageCount recent cat2 : Int) := by
      exact_mod_cast hu
    have : max 0 (10 - (usageCount recent cat2 : Int)) ≤
        max 0 (10 - (usageCount recent cat1 : Int)) :=
      max_le_max le_rfl (by omega)
    omega
  · intro hge
    rw [get_category_weights_lookup recent cat1 b1 h1]
    have hcast : (10 : Int) ≤ (usageCount recent cat1 : Int) := by exact_mod_cast hge
    have : max 0 (10 - (usageCount recent cat1 : Int)) = 0 :=
      max_eq_left (by omega)
    rw [this, add_zero]

/-- Concrete instantiation of the C4 theorem with the Sleep and Mental
Health categories (equal base weight 6) over an empty history. -/
theorem category_weights_formula_witness :
    (get_category_weights []).lookup "Sleep" =
      some (6 + max 0 (10 - (usageCount [] "Sleep" : Int))) ∧
    ((get_category_weights []).lookup "Mental Health").getD 0 ≤
      ((get_category_weights []).lookup "Sleep").getD 0 ∧
    (get_category_weights [⟨"t", "x", "Sleep", [], 0⟩, ⟨"t", "x", "Sleep", [], 1⟩,
        ⟨"t", "x", "Sleep", [], 2⟩, ⟨"t", "x", "Sleep", [], 3⟩,
        ⟨"t", "x", "Sleep", [], 4⟩, ⟨"t", "x", "Sleep", [], 5⟩,
        ⟨"t", "x", "Sleep", [], 6⟩, ⟨"t", "x", "Sleep", [], 7⟩,
        ⟨"t", "x", "Sleep", [], 8⟩, ⟨"t", "x", "Sleep", [], 9⟩]).lookup "Sleep" =
      some 6 := by
  refine ⟨(category_weights_formula [] "Sleep" "Mental Health" 6 6
      (by decide) (by decide)).1,
    (category_weights_formula [] "Sleep" "Mental Health" 6 6
      (by decide) (by decide)).2.1 rfl (by decide), ?_⟩
  exact (category_weights_formula _ "Sleep" "Mental Health" 6 6
    (by decide) (by decide)).2.2 (by decide)

/-- One weighted draw in the style of random.choices with k = 1: the
uniform sample u lies in [0, total weight) and the draw walks the
cumulative weights; none models the ValueError raised when the population
is exhausted without the sample being covered. -/
def choicesOne (u : ℚ) : List (String × Int) → Option String
  | [] => none
  | (c, w) :: rest => if u < (w : ℚ) then some c else choicesOne (u - (w : ℚ)) rest

/-- The candidate weight map of
TopicDiversityEngine.select_diverse_category (diversity_engine.py lines
75-89): the dynamic weights restricted to non-excluded categories, falling
back to the unfiltered map when the restriction is empty. -/
def availableWeights (recent : List ContentRecord) (exclude : List String) :
    List (String × Int) :=
  let weights := get_category_weights recent
  let available := weights.filter (fun p => decide (p.1 ∉ exclude))
  if available.isEmpty then weights else available

/-- Total weight of a candidate map (the normalisation constant of the
weighted draw). -/
def totalWeight (l : List (String × Int)) : Int :=
  (l.map Prod.snd).sum

/-- TopicDiversityEngine.select_diverse_category (diversity_engine.py lines
65-97) with the weighted random draw fed by the injected sample u. -/
def select_diverse_category (u : ℚ) (recent : List ContentRecord)
    (exclude : List String) : Option String :=
  choicesOne u (availableWeights recent exclude)

lemma choicesOne_mem_of_lt_sum (l : List (String × Int)) (u : ℚ)
    (hu : 0 ≤ u) (hlt : u < (totalWeight l : ℚ)) :
    ∃ c, choicesOne u l = some c ∧ c ∈ l.map Prod.fst := by
  induction l generalizing u with
  | nil =>
    exfalso
    have h0 : (totalWeight ([] : List (String × Int)) : ℚ) = 0 := by
      simp [totalWeight]
    rw [h0] at hlt
    linarith
  | cons hd tl ih =>
    obtain ⟨c, w⟩ := hd
    by_cases hw : u < (w : ℚ)
    · refine ⟨c, ?_, by simp⟩
      simp [choicesOne, hw]
    · have hsum : (totalWeight ((c, w) :: tl) : ℚ) = (w : ℚ) + (totalWeight tl : ℚ) := by
        unfold totalWeight
        simp only [List.map_cons, List.sum_cons]
        push_cast
        ring
      have h1 : 0 ≤ u - (w : ℚ) := by
        push_neg at hw
        linarith
      have h2 : u - (w : ℚ) < (totalWeight tl : ℚ) := by
        rw [hsum] at hlt
        linarith
      obtain ⟨c2, hc2, hmem⟩ := ih (u - (w : ℚ)) h1 h2
      refine ⟨c2, ?_, by simp [hmem]⟩
      have hstep : choicesOne u ((c, w) :: tl) = choicesOne (u - (w : ℚ)) tl := by
        simp only [choicesOne]
        rw [if_neg hw]
      rw [hstep]
      exact hc2

lemma availableWeights_def (recent : List ContentRecord) (exclude : List String) :
    availableWeights recent exclude =
      if ((get_category_weights recent).filter
          (fun p => decide (p.1 ∉ exclude))).isEmpty then get_category_weights recent
      else (get_category_weights recent).filter (fun p => decide (p.1 ∉ exclude)) :=
  rfl

lemma get_category_weights_keys (recent : List ContentRecord) :
    (get_category_weights recent).map Prod.fst = HEALTH_CATEGORIES.map Prod.fst := by
  simp [get_category_weights, List.map_map]

/-- C5: whenever the uniform sample is in range, select_diverse_category
returns some defined category (it never fails); and if at least one defined
category is not excluded, the result is not an excluded one. -/
theorem select_diverse_category_total (u : ℚ) (recent : List ContentRecord)
    (exclude : List String) (hu : 0 ≤ u)
    (hlt : u < (totalWeight (availableWeights recent exclude) : ℚ)) :
    ∃ c, select_diverse_category u recent exclude = some c ∧
      c ∈ HEALTH_CATEGORIES.map Prod.fst ∧
      ((∃ cat ∈ HEALTH_CATEGORIES.map Prod.fst, cat ∉ exclude) → c ∉ exclude) := by
  obtain ⟨c, hc, hmem⟩ :=
    choicesOne_mem_of_lt_sum (availableWeights recent exclude) u hu hlt
  refine ⟨c, hc, ?_, ?_⟩
  · have hsub : availableWeights recent exclude ⊆ get_category_weights recent := by
      rw [availableWeights_def]
      split
      · exact fun a ha => ha
      · exact (List.filter_sublist _).subset
    have hm2 := List.map_subset Prod.fst hsub hmem
    rwa [get_category_weights_keys] at hm2
  · intro hex
    obtain ⟨cat, hcat, hncat⟩ := hex
    have hfil : ((get_category_weights recent).filter
        (fun p => decide (p.1 ∉ exclude))) ≠ [] := by
      intro hnil
      rw [← get_category_weights_keys recent] at hcat
      obtain ⟨p, hp, hfst⟩ := List.mem_map.mp hcat
      have hpf : p ∈ (get_category_weights recent).filter
          (fun p => decide (p.1 ∉ exclude)) :=
        List.mem_filter.mpr ⟨hp, decide_eq_true (by rw [hfst]; exact hncat)⟩
      rw [hnil] at hpf
      cases hpf
    have havail : availableWeights recent exclude =
        (get_category_weights recent).filter (fun p => decide (p.1 ∉ exclude)) := by
      rw [availableWeights_def, if_neg]
      simpa [List.isEmpty_iff] using hfil
    rw [havail] at hmem
    obtain ⟨p, hp, hfst⟩ := List.mem_map.mp hmem
    have hdec := (List.mem_filter.mp hp).2
    rw [hfst] at hdec
    simpa using hdec

/-- Concrete instantiation of the C5 theorem: empty history, the Nutrition
category excluded, a zero sample. -/
theorem select_diverse_category_total_witness :
    ∃ c, select_diverse_category 0 [] ["Nutrition"] = some c ∧
      c ∈ HEALTH_CATEGORIES.map Prod.fst ∧
      ((∃ cat ∈ HEALTH_CATEGORIES.map Prod.fst, cat ∉ ["Nutrition"]) →
        c ∉ ["Nutrition"]) := by
  have htot : totalWeight (availableWeights [] ["Nutrition"]) = 136 := by decide
  exact select_diverse_category_total 0 [] ["Nutrition"] le_rfl
    (by rw [htot]; norm_num)

/-- Result shape of TopicDiversityEngine.get_diversity_score; the last two
fields are only present in the non-empty-history branch of the source and
are therefore optional. -/
structure DiversityScore where
  score : ℚ
  category_diversity : ℚ
  topic_diversity : ℚ
  categories_used : Option Nat
  total_categories : Option Nat
deriving DecidableEq, Repr

/-- All pairwise similarities of a topic list, one entry per unordered pair
(the nested i < j loop of diversity_engine.py lines 208-212). -/
def pairwiseSimilarities : List String → List ℚ
  | [] => []
  | t :: rest => rest.map (calculate_topic_similarity t) ++ pairwiseSimilarities rest

/-- TopicDiversityEngine.get_diversity_score (diversity_engine.py lines
183-226) over the fetched history window. -/
def get_diversity_score (recent : List ContentRecord) : DiversityScore :=
  if recent.isEmpty then ⟨1, 1, 1, none, none⟩
  else
    let categories_used := (recent.map (fun c => c.category)).dedup
    let total_categories := HEALTH_CATEGORIES.length
    let category_diversity := (categories_used.length : ℚ) / (total_categories : ℚ)
    let topics := recent.map (fun c => c.topic)
    let topic_diversity :=
      if topics.length < 2 then (1 : ℚ)
      else
        let similarities := pairwiseSimilarities topics
        let avg_similarity :=
          if similarities.isEmpty then (0 : ℚ)
          else similarities.sum / (similarities.length : ℚ)
        1 - avg_similarity
    ⟨(category_diversity + topic_diversity) / 2, category_diversity,
      topic_diversity, some categories_used.length, some total_categories⟩

/-- C6: an empty history window yields score, category diversity and topic
diversity all equal to 1; a single-record window yields topic diversity 1;
and the average-similarity denominator is never zero, because the pairwise
similarity list is non-empty whenever the window holds at least two
records (so no window size makes the computation fault). -/
theorem diversity_score_cold_start (r : ContentRecord)
    (recent : List ContentRecord) :
    (get_diversity_score []).score = 1 ∧
    (get_diversity_score []).category_diversity = 1 ∧
    (get_diversity_score []).topic_diversity = 1 ∧
    (get_diversity_score [r]).topic_diversity = 1 ∧
    (2 ≤ recent.length →
      pairwiseSimilarities (recent.map (fun c => c.topic)) ≠ []) := by
  refine ⟨rfl, rfl, rfl, rfl, ?_⟩
  intro hlen
  match recent with
  | [] => simp at hlen
  | [a] => simp at hlen
  | a :: b :: rest => simp [pairwiseSimilarities]

/-- Concrete instantiation of the C6 theorem at a two-record history. -/
theorem diversity_score_cold_start_witness :
    pairwiseSimilarities
      (([⟨"t1", "apple banana", "Fitness", [], 0⟩,
         ⟨"t2", "quiet evening", "Sleep", [], 1⟩] :
        List ContentRecord).map (fun c => c.topic)) ≠ [] :=
  (diversity_score_cold_start ⟨"t1", "apple banana", "Fitness", [], 0⟩
    [⟨"t1", "apple banana", "Fitness", [], 0⟩,
     ⟨"t2", "quiet evening", "Sleep", [], 1⟩]).2.2.2.2 (by decide)

/-- TopicDiversityEngine.find_similar_topics (diversity_engine.py lines
148-167): history records whose topic similarity reaches the threshold. -/
def find_similar_topics (recent : List ContentRecord) (topic : String)
    (threshold : ℚ) : List ContentRecord :=
  recent.filter (fun c => decide (threshold ≤ calculate_topic_similarity topic c.topic))

/-- SmartTopicSelector._calculate_selection_confidence (smart_selector.py
lines 123-141): base 0.8, category-usage bonus, similarity penalty,
clamped to [0, 1].  The similarity threshold of the penalty is the
selector's similarity_threshold 0.4. -/
def calculate_selection_confidence (recent : List ContentRecord)
    (topic category : String) : ℚ :=
  let confidence : ℚ := 8/10
  let category_usage := usageCount recent category
  let confidence :=
    if category_usage = 0 then confidence + 2/10
    else if category_usage < 3 then confidence + 1/10
    else confidence
  let similar_topics := find_similar_topics recent topic (2/5)
  let confidence := if similar_topics.isEmpty then confidence else confidence - 3/10
  max 0 (min 1 confidence)

lemma find_similar_topics_isEmpty_iff (recent : List ContentRecord)
    (topic : String) (threshold : ℚ) :
    (find_similar_topics recent topic threshold).isEmpty = true ↔
      ¬∃ c ∈ recent, threshold ≤ calculate_topic_similarity topic c.topic := by
  rw [List.isEmpty_iff, find_similar_topics, List.filter_eq_nil_iff]
  constructor
  · intro h ⟨c, hc, hle⟩
    exact absurd (decide_eq_true hle) (by simpa using h c hc)
  · intro h c hc
    simp only [decide_eq_true_eq]
    exact fun hle => h ⟨c, hc, hle⟩

/-- C7: the selection confidence is 0.8 plus 0.2 for an unused category,
plus 0.1 for a category used once or twice, minus 0.3 when some history
record has topic similarity at least 0.4, clamped to [0, 1]; in
particular it is 1 (hence at least 0.8) under an empty history. -/
theorem selection_confidence_formula (recent : List ContentRecord)
    (topic category : String) :
    calculate_selection_confidence recent topic category =
      max 0 (min 1 ((8/10 : ℚ)
        + (if usageCount recent category = 0 then 2/10
           else if usageCount recent category = 1 ∨ usageCount recent category = 2
             then 1/10 else 0)
        - (if ∃ c ∈ recent, 2/5 ≤ calculate_topic_similarity topic c.topic
           then 3/10 else 0))) ∧
    (recent = [] → calculate_selection_confidence recent topic category = 1) ∧
    (recent = [] → 8/10 ≤ calculate_selection_confidence recent topic category) := by
  have hdef : calculate_selection_confidence recent topic category =
      max 0 (min 1
        (if (find_similar_topics recent topic (2/5)).isEmpty = true then
          (if usageCount recent category = 0 then (8/10 : ℚ) + 2/10
           else if usageCount recent category < 3 then 8/10 + 1/10 else 8/10)
         else
          (if usageCount recent category = 0 then (8/10 : ℚ) + 2/10
           else if usageCount recent category < 3 then 8/10 + 1/10 else 8/10)
            - 3/10)) :=
    rfl
  have hA : (if usageCount recent category = 0 then (8/10 : ℚ) + 2/10
      else if usageCount recent category < 3 then 8/10 + 1/10 else 8/10) =
      8/10 + (if usageCount recent category = 0 then (2/10 : ℚ)
        else if usageCount recent category = 1 ∨ usageCount recent category = 2
          then 1/10 else 0) := by
    by_cases h0 : usageCount recent category = 0
    · rw [if_pos h0, if_pos h0]
    · by_cases h3 : usageCount recent category < 3
      · rw [if_neg h0, if_pos h3, if_neg h0, if_pos (by omega)]
      · rw [if_neg h0, if_neg h3, if_neg h0, if_neg (by omega), add_zero]
  have hmain : calculate_selection_confidence recent topic category =
      max 0 (min 1 ((8/10 : ℚ)
        + (if usageCount recent category = 0 then 2/10
           else if usageCount recent category = 1 ∨ usageCount recent category = 2
             then 1/10 else 0)
        - (if ∃ c ∈ recent, 2/5 ≤ calculate_topic_similarity topic c.topic
           then 3/10 else 0))) := by
    rw [hdef]
    by_cases hsim : ∃ c ∈ recent, 2/5 ≤ calculate_topic_similarity topic c.topic
    · have hne : (find_similar_topics recent topic (2/5)).isEmpty = false := by
        cases hval : (find_similar_topics recent topic (2/5)).isEmpty with
        | false => rfl
        | true =>
          exact absurd hsim
            ((find_similar_topics_isEmpty_iff recent topic (2/5)).mp hval)
      rw [hne, if_neg (by simp), if_pos hsim, hA]
    · have hemp : (find_similar_topics recent topic (2/5)).isEmpty = true :=
        (find_similar_topics_isEmpty_iff recent topic (2/5)).mpr hsim
      rw [hemp, if_pos rfl, if_neg hsim, sub_zero, hA]
  refine ⟨hmain, ?_, ?_⟩
  · intro h
    subst h
    rw [hmain]
    norm_num [usageCount]
  · intro h
    subst h
    rw [hmain]
    norm_num [usageCount]

/-- Concrete instantiation of the C7 theorem: the empty-history hypotheses
are discharged. -/
theorem selection_confidence_formula_witness :
    calculate_selection_confidence [] "morning stretch" "Fitness" = 1 ∧
    8/10 ≤ calculate_selection_confidence [] "morning stretch" "Fitness" :=
  ⟨(selection_confidence_formula [] "morning stretch" "Fitness").2.1 rfl,
   (selection_confidence_formula [] "morning stretch" "Fitness").2.2 rfl⟩

/-- Number of consecutive equal adjacent entries in a category sequence
(the i from 1 loop of ContentCalendar._calculate_rotation_efficiency). -/
def countConsecutive : List String → Nat
  | a :: b :: rest => (if a = b then 1 else 0) + countConsecutive (b :: rest)
  | _ => 0

/-- ContentCalendar._calculate_rotation_efficiency (content_calendar.py
lines 140-155). -/
def calculate_rotation_efficiency (category_sequence : List String) : ℚ :=
  if category_sequence.length < 2 then 1
  else
    let consecutive_count := countConsecutive category_sequence
    let max_consecutive := category_sequence.length - 1
    if 0 < max_consecutive then
      1 - (consecutive_count : ℚ) / (max_consecutive : ℚ)
    else 1

/-- C8: rotation efficiency is 1 minus the ratio of consecutive
same-category transitions to sequence length minus 1, is 1 on sequences
shorter than 2, is 0 on a constant three-element sequence, and is 1 on a
perfectly alternating four-element sequence. -/
theorem rotation_efficiency_formula (seq : List String) (A B : String)
    (hAB : A ≠ B) :
    (seq.length < 2 → calculate_rotation_efficiency seq = 1) ∧
    (2 ≤ seq.length → calculate_rotation_efficiency seq =
      1 - (countConsecutive seq : ℚ) / ((seq.length - 1 : ℕ) : ℚ)) ∧
    calculate_rotation_efficiency [A, A, A] = 0 ∧
    calculate_rotation_efficiency [A, B, A, B] = 1 := by
  refine ⟨?_, ?_, ?_, ?_⟩
  · intro h
    unfold calculate_rotation_efficiency
    rw [if_pos h]
  · intro h
    unfold calculate_rotation_efficiency
    rw [if_neg (by omega), if_pos (by omega)]
  · have hc : countConsecutive [A, A, A] = 2 := by
      simp [countConsecutive]
    unfold calculate_rotation_efficiency
    rw [if_neg (by simp), hc]
    norm_num
  · have hc : countConsecutive [A, B, A, B] = 0 := by
      simp [countConsecutive, hAB, hAB.symm]
    unfold calculate_rotation_efficiency
    rw [if_neg (by simp), hc]
    norm_num

/-- Concrete instantiation of the C8 theorem at explicit category names. -/
theorem rotation_efficiency_formula_witness :
    calculate_rotation_efficiency ["Sleep", "Sleep", "Sleep"] = 0 ∧
    calculate_rotation_efficiency ["Sleep", "Fitness", "Sleep", "Fitness"] = 1 ∧
    calculate_rotation_efficiency ["Sleep", "Fitness", "Sleep", "Fitness"] =
      1 - (countConsecutive ["Sleep", "Fitness", "Sleep", "Fitness"] : ℚ) /
        (((["Sleep", "Fitness", "Sleep", "Fitness"] :
          List String).length - 1 : ℕ) : ℚ) := by
  refine ⟨(rotation_efficiency_formula [] "Sleep" "Fitness" (by decide)).2.2.1,
    (rotation_efficiency_formula [] "Sleep" "Fitness" (by decide)).2.2.2, ?_⟩
  exact (rotation_efficiency_formula ["Sleep", "Fitness", "Sleep", "Fitness"]
    "Sleep" "Fitness" (by decide)).2.1 (by decide)

/-- Python max with default 0: the maximum of a rational list, 0 when the
list is empty (used for the similarity maxima of
enhanced_duplicate_detection.py lines 70-72). -/
def maxDefault0 : List ℚ → ℚ
  | [] => 0
  | x :: xs => xs.foldl max x

/-- The title similarities recorded by
EnhancedDuplicateDetector.check_content_similarity (lines 42-50): only
values strictly above 0.3 enter the list. -/
def titleSimilarities (recent : List ContentRecord) (title : String) : List ℚ :=
  (recent.map (fun c => calculate_topic_similarity title c.title)).filter
    (fun s => decide (3/10 < s))

/-- The topic similarities recorded by
EnhancedDuplicateDetector.check_content_similarity (lines 52-61): only
values strictly above the similarity_threshold 0.4 enter the list. -/
def topicSimilarities (recent : List ContentRecord) (topic : String) : List ℚ :=
  (recent.map (fun c => calculate_topic_similarity topic c.topic)).filter
    (fun s => decide (2/5 < s))

/-- EnhancedDuplicateDetector._check_category_repetition
(enhanced_duplicate_detection.py lines 93-115), reduced to its
is_repetitive flag: the category occurs within the last 3 days, or more
than twice within the fetched window. -/
def check_category_repetition (category : Option String)
    (recent : List ContentRecord) (now : Int) : Bool :=
  match category with
  | none => false
  | some cat =>
    let recent_usage := (recent.filter (fun c => decide (c.category = cat))).length
    let very_recent_usage := (recent.filter (fun c =>
      decide (c.category = cat ∧ now - 3 * 86400 ≤ c.generated_at))).length
    decide (0 < very_recent_usage ∨ 2 < recent_usage)

/-- Number of window records whose cached keyword set contains the keyword
(the keyword_usage counting loop of
EnhancedDuplicateDetector._check_keyword_repetition). -/
def keywordUsage (recent : List ContentRecord) (k : String) : Nat :=
  (recent.filter (fun c => decide (k ∈ c.topic_keywords))).length

/-- EnhancedDuplicateDetector._check_keyword_repetition
(enhanced_duplicate_detection.py lines 117-145), reduced to its
is_repetitive flag: some candidate keyword is used in more than 2 records. -/
def check_keyword_repetition (topic : String)
    (recent : List ContentRecord) : Bool :=
  let topic_keywords := (extract_topic_keywords topic).dedup
  if topic_keywords.isEmpty then false
  else !(topic_keywords.filter (fun k => decide (2 < keywordUsage recent k))).isEmpty

/-- EnhancedDuplicateDetector.check_content_similarity
(enhanced_duplicate_detection.py lines 24-91), reduced to its is_similar
flag: the overall similarity (max over both recorded lists) must exceed
the similarity_threshold 0.4, or a category or keyword repetition fires. -/
def check_content_similarity_is_similar (recent : List ContentRecord)
    (now : Int) (title topic : String) (category : Option String) : Bool :=
  let max_title_similarity := maxDefault0 (titleSimilarities recent title)
  let max_topic_similarity := maxDefault0 (topicSimilarities recent topic)
  let overall_similarity := max max_title_similarity max_topic_similarity
  decide (2/5 < overall_similarity) ||
    check_category_repetition category recent now ||
    check_keyword_repetition topic recent

lemma lt_foldl_max_iff (t : ℚ) (l : List ℚ) :
    ∀ a : ℚ, t < l.foldl max a ↔ t < a ∨ ∃ x ∈ l, t < x := by
  induction l with
  | nil =>
    intro a
    simp
  | cons y ys ih =>
    intro a
    rw [List.foldl_cons, ih (max a y)]
    constructor
    · rintro (h | h)
      · rcases lt_max_iff.mp h with h | h
        · exact Or.inl h
        · exact Or.inr ⟨y, by simp, h⟩
      · obtain ⟨x, hx, ht⟩ := h
        exact Or.inr ⟨x, by simp [hx], ht⟩
    · rintro (h | ⟨x, hx, ht⟩)
      · exact Or.inl (lt_max_iff.mpr (Or.inl h))
      · rcases List.mem_cons.mp hx with rfl | hx2
        · exact Or.inl (lt_max_iff.mpr (Or.inr ht))
        · exact Or.inr ⟨x, hx2, ht⟩

lemma lt_maxDefault0_iff (t : ℚ) (ht : 0 ≤ t) (l : List ℚ) :
    t < maxDefault0 l ↔ ∃ x ∈ l, t < x := by
  cases l with
  | nil =>
    constructor
    · intro h
      exact absurd h (not_lt.mpr ht)
    · rintro ⟨x, hx, -⟩
      cases hx
  | cons a as =>
    rw [show maxDefault0 (a :: as) = as.foldl max a from rfl, lt_foldl_max_iff]
    constructor
    · rintro (h | ⟨x, hx, ht2⟩)
      · exact ⟨a, by simp, h⟩
      · exact ⟨x, by simp [hx], ht2⟩
    · rintro ⟨x, hx, ht2⟩
      rcases List.mem_cons.mp hx with rfl | hx2
      · exact Or.inl ht2
      · exact Or.inr ⟨x, hx2, ht2⟩

lemma exists_gt_in_threshold_filter (recent : List ContentRecord)
    (f : ContentRecord → ℚ) (low t : ℚ) (hle : low ≤ t) :
    (∃ x ∈ (recent.map f).filter (fun s => decide (low < s)), t < x) ↔
      ∃ c ∈ recent, t < f c := by
  constructor
  · rintro ⟨x, hx, ht⟩
    obtain ⟨hmem, -⟩ := List.mem_filter.mp hx
    obtain ⟨c, hc, rfl⟩ := List.mem_map.mp hmem
    exact ⟨c, hc, ht⟩
  · rintro ⟨c, hc, ht⟩
    exact ⟨f c, List.mem_filter.mpr ⟨List.mem_map_of_mem f hc,
      decide_eq_true (lt_of_le_of_lt hle ht)⟩, ht⟩

lemma check_category_repetition_iff (category : Option String)
    (recent : List ContentRecord) (now : Int) :
    check_category_repetition category recent now = true ↔
      ∃ cat, category = some cat ∧
        ((∃ c ∈ recent, c.category = cat ∧ now - 3 * 86400 ≤ c.generated_at) ∨
         2 < (recent.filter (fun c => decide (c.category = cat))).length) := by
  cases category with
  | none => simp [check_category_repetition]
  | some cat =>
    rw [show check_category_repetition (some cat) recent now =
      decide (0 < (recent.filter (fun c =>
          decide (c.category = cat ∧ now - 3 * 86400 ≤ c.generated_at))).length ∨
        2 < (recent.filter (fun c => decide (c.category = cat))).length) from rfl]
    rw [decide_eq_true_eq]
    constructor
    · rintro (h | h)
      · obtain ⟨c, hc⟩ := List.exists_mem_of_length_pos h
        obtain ⟨hcr, hcp⟩ := List.mem_filter.mp hc
        exact ⟨cat, rfl, Or.inl ⟨c, hcr, of_decide_eq_true hcp⟩⟩
      · exact ⟨cat, rfl, Or.inr h⟩
    · rintro ⟨cat2, hcat2, h | h⟩
      · obtain rfl := Option.some.injEq cat cat2 ▸ hcat2
        obtain ⟨c, hcr, hcp⟩ := h
        exact Or.inl (List.length_pos_of_mem
          (List.mem_filter.mpr ⟨hcr, decide_eq_true hcp⟩))
      · obtain rfl := Option.some.injEq cat cat2 ▸ hcat2
        exact Or.inr h

lemma check_keyword_repetition_iff (topic : String)
    (recent : List ContentRecord) :
    check_keyword_repetition topic recent = true ↔
      ∃ k ∈ extract_topic_keywords topic, 2 < keywordUsage recent k := by
  have hdef : check_keyword_repetition topic recent =
      (if (extract_topic_keywords topic).dedup.isEmpty = true then false
       else !((extract_topic_keywords topic).dedup.filter
          (fun k => decide (2 < keywordUsage recent k))).isEmpty) :=
    rfl
  by_cases hkw : (extract_topic_keywords topic).dedup.isEmpty = true
  · rw [hdef, if_pos hkw]
    rw [List.isEmpty_iff, List.dedup_eq_nil] at hkw
    simp [hkw]
  · rw [hdef, if_neg hkw]
    constructor
    · intro h
      have hne : ((extract_topic_keywords topic).dedup.filter
          (fun k => decide (2 < keywordUsage recent k))) ≠ [] := by
        intro hnil
        rw [hnil] at h
        simp at h
      obtain ⟨k, hk⟩ := List.exists_mem_of_ne_nil _ hne
      obtain ⟨hkm, hkp⟩ := List.mem_filter.mp hk
      exact ⟨k, List.mem_dedup.mp hkm, of_decide_eq_true hkp⟩
    · rintro ⟨k, hk, hku⟩
      have hmem : k ∈ (extract_topic_keywords topic).dedup.filter
          (fun k => decide (2 < keywordUsage recent k)) :=
        List.mem_filter.mpr ⟨List.mem_dedup.mpr hk, decide_eq_true hku⟩
      cases hfe : (extract_topic_keywords topic).dedup.filter
          (fun k => decide (2 < keywordUsage recent k)) with
      | nil =>
        rw [hfe] at hmem
        cases hmem
      | cons a as => rfl

/-- C2 amended: is_similar is true iff some history title similarity is
strictly above 0.4, or some history topic similarity is strictly above
0.4, or the category was used within the last 3 days or more than 2 times
in the window, or some candidate keyword occurs in more than 2 records'
cached keyword sets.  A history title similarity that only reaches 0.3
enters the recorded title list but does not by itself set the flag. -/
theorem check_content_similarity_amended (recent : List ContentRecord)
    (now : Int) (title topic : String) (category : Option String) :
    check_content_similarity_is_similar recent now title topic category = true ↔
      ((∃ c ∈ recent, 2/5 < calculate_topic_similarity title c.title) ∨
       (∃ c ∈ recent, 2/5 < calculate_topic_similarity topic c.topic) ∨
       (∃ cat, category = some cat ∧
         ((∃ c ∈ recent, c.category = cat ∧ now - 3 * 86400 ≤ c.generated_at) ∨
          2 < (recent.filter (fun c => decide (c.category = cat))).length)) ∨
       (∃ k ∈ extract_topic_keywords topic, 2 < keywordUsage recent k)) := by
  have hdef : check_content_similarity_is_similar recent now title topic category =
      (decide (2/5 < max (maxDefault0 (titleSimilarities recent title))
          (maxDefault0 (topicSimilarities recent topic))) ||
        check_category_repetition category recent now ||
        check_keyword_repetition topic recent) :=
    rfl
  have hT : 2/5 < maxDefault0 (titleSimilarities recent title) ↔
      ∃ c ∈ recent, 2/5 < calculate_topic_similarity title c.title := by
    rw [lt_maxDefault0_iff _ (by norm_num)]
    exact exists_gt_in_threshold_filter recent _ (3/10) (2/5) (by norm_num)
  have hP : 2/5 < maxDefault0 (topicSimilarities recent topic) ↔
      ∃ c ∈ recent, 2/5 < calculate_topic_similarity topic c.topic := by
    rw [lt_maxDefault0_iff _ (by norm_num)]
    exact exists_gt_in_threshold_filter recent _ (2/5) (2/5) le_rfl
  rw [hdef, Bool.or_eq_true, Bool.or_eq_true, decide_eq_true_eq, lt_max_iff,
    hT, hP, check_category_repetition_iff, check_keyword_repetition_iff,
    or_assoc, or_assoc]

/-- C2 as stated is false: a history title with similarity exactly 1/3
(which is at least 0.3) does not set is_similar, because the recorded
title similarities only contribute through the final strict comparison
overall_similarity > 0.4.  All other rules are quiet here: the topics are
dissimilar, the candidate category is unused, and no keyword is shared. -/
theorem check_content_similarity_counterexample :
    (3/10 : ℚ) ≤ calculate_topic_similarity "apple banana" "apple cherry" ∧
    check_content_similarity_is_similar
      [⟨"apple cherry", "zebra stripes", "Sleep", ["zebra", "stripes"], 0⟩]
      0 "apple banana" "quiet morning" (some "Fitness") = false := by
  have hsimT : calculate_topic_similarity "apple banana" "apple cherry" = 1/3 :=
    rfl
  have hsimP : calculate_topic_similarity "quiet morning" "zebra stripes" =
      ((0 : ℕ) : ℚ) / ((4 : ℕ) : ℚ) :=
    rfl
  constructor
  · rw [hsimT]
    norm_num
  · rw [← Bool.not_eq_true, check_content_similarity_amended]
    intro hcon
    rcases hcon with ⟨c, hc, hlt⟩ | ⟨c, hc, hlt⟩ | ⟨cat, hcat, hrep⟩ | ⟨k, hk, hku⟩
    · rw [List.mem_singleton] at hc
      subst hc
      rw [hsimT] at hlt
      norm_num at hlt
    · rw [List.mem_singleton] at hc
      subst hc
      rw [hsimP] at hlt
      norm_num at hlt
    · obtain rfl : "Fitness" = cat := Option.some.inj hcat
      rcases hrep with ⟨c, hc, hcc, -⟩ | hlen
      · rw [List.mem_singleton] at hc
        subst hc
        exact absurd hcc (by decide)
      · have hnil : (([⟨"apple cherry", "zebra stripes", "Sleep",
            ["zebra", "stripes"], 0⟩] : List ContentRecord).filter
            (fun c => decide (c.category = "Fitness"))) = [] := rfl
        rw [hnil] at hlen
        norm_num at hlen
    · have hkw : extract_topic_keywords "quiet morning" = ["quiet", "morning"] :=
        rfl
      rw [hkw] at hk
      rcases List.mem_cons.mp hk with rfl | hk2
      · have : keywordUsage [⟨"apple cherry", "zebra stripes", "Sleep",
            ["zebra", "stripes"], 0⟩] "quiet" = 0 := rfl
        rw [this] at hku
        norm_num at hku
      · rw [List.mem_singleton] at hk2
        subst hk2
        have : keywordUsage [⟨"apple cherry", "zebra stripes", "Sleep",
            ["zebra", "stripes"], 0⟩] "morning" = 0 := rfl
        rw [this] at hku
        norm_num at hku

/-- Concrete instantiation of the C2 amended theorem: a history topic with
similarity 0.8 to the candidate makes is_similar true. -/
theorem check_content_similarity_amended_witness :
    check_content_similarity_is_similar
      [⟨"Lemon water benefits", "drink lemon water for energy", "Nutrition",
        ["drink", "lemon", "water", "energy"], 0⟩]
      0 "A new morning habit" "drink lemon water for more energy" none = true := by
  refine (check_content_similarity_amended
    [⟨"Lemon water benefits", "drink lemon water for energy", "Nutrition",
      ["drink", "lemon", "water", "energy"], 0⟩]
    0 "A new morning habit" "drink lemon water for more energy" none).mpr ?_
  refine Or.inr (Or.inl ⟨⟨"Lemon water benefits",
    "drink lemon water for energy", "Nutrition",
    ["drink", "lemon", "water", "energy"], 0⟩, List.mem_singleton.mpr rfl, ?_⟩)
  have hsim : calculate_topic_similarity "drink lemon water for more energy"
      "drink lemon water for energy" = 4/5 :=
    rfl
  rw [hsim]
  norm_num

/-- The static topic catalog TOPIC_DATABASE of TopicBank
(topic_bank.py lines 15-396): category names mapped to difficulty buckets
of topic strings, in source order. -/
def TOPIC_DATABASE : List (String × List (String × List String)) := [
  ("Nutrition", [
    ("beginner", ["Drink 8 glasses of water daily for glowing skin", "Eat 5 servings of fruits and vegetables every day", "Start your morning with a glass of warm lemon water", "Include protein in every meal for sustained energy", "Choose whole grains over refined grains for better nutrition", "Add colorful vegetables to your plate for antioxidants", "Eat slowly and chew your food thoroughly", "Include healthy fats like avocado and nuts in your diet", "Drink herbal tea instead of sugary beverages", "Plan your meals ahead to avoid unhealthy choices"]),
    ("intermediate", ["Intermittent fasting benefits for metabolism and weight management", "Meal prep strategies for busy professionals", "Understanding macronutrient ratios for optimal health", "Fermented foods for gut health and immunity", "Anti-inflammatory diet principles and food choices", "Seasonal eating for maximum nutritional benefits", "Plant-based protein sources and complete amino acids", "Hydration timing for optimal performance", "Pre and post workout nutrition strategies", "Mindful eating techniques for better digestion"]),
    ("advanced", ["Personalized nutrition based on genetic testing", "Advanced supplementation strategies for athletes", "Metabolic flexibility and fat adaptation", "Nutrient timing for competitive performance", "Therapeutic diets for specific health conditions", "Advanced meal planning for body composition goals", "Biohacking nutrition for longevity", "Functional medicine approach to nutrition", "Advanced hydration protocols for elite performance", "Nutritional strategies for stress management"])
  ]),
  ("Fitness", [
    ("beginner", ["Take a 10-minute walk after every meal", "Do 20 squats every morning to start your day", "Stretch for 5 minutes before getting out of bed", "Use stairs instead of elevators when possible", "Park farther away to get extra steps", "Do wall push-ups to build upper body strength", "Take regular breaks to stand and stretch at work", "Dance to your favorite song for 3 minutes", "Do calf raises while brushing your teeth", "Take a 15-minute walk during your lunch break"]),
    ("intermediate", ["High-intensity interval training (HIIT) for fat loss", "Progressive overload principles for strength gains", "Compound exercises for full-body workouts", "Flexibility and mobility routines for injury prevention", "Cardio zone training for endurance improvement", "Functional movement patterns for daily activities", "Recovery strategies for optimal performance", "Bodyweight training progressions", "Core stability exercises for better posture", "Balance and coordination training"]),
    ("advanced", ["Periodization training for peak performance", "Advanced strength training techniques", "Sport-specific conditioning protocols", "Recovery optimization through technology", "Advanced flexibility and mobility training", "Competition preparation strategies", "Injury rehabilitation through exercise", "Performance testing and assessment", "Advanced training periodization", "Elite athlete recovery protocols"])
  ]),
  ("Mental Health", [
    ("beginner", ["Take 5 deep breaths when feeling stressed", "Write down 3 things you are grateful for each day", "Spend 10 minutes in nature to reduce anxiety", "Practice saying no to reduce overwhelm", "Listen to calming music during stressful times", "Take regular breaks from social media", "Practice positive self-talk throughout the day", "Connect with a friend or family member daily", "Engage in a hobby you enjoy for 30 minutes", "Practice mindfulness during routine activities"]),
    ("intermediate", ["Meditation techniques for stress reduction", "Cognitive behavioral therapy (CBT) strategies", "Emotional regulation techniques", "Mindfulness-based stress reduction (MBSR)", "Breathing exercises for anxiety management", "Journaling for emotional processing", "Social connection strategies for mental health", "Sleep hygiene for mental wellness", "Stress management through physical activity", "Mindfulness practices for daily life"]),
    ("advanced", ["Advanced meditation and mindfulness practices", "Therapeutic approaches for complex trauma", "Neuroplasticity training for mental resilience", "Advanced stress management techniques", "Mental health optimization strategies", "Therapeutic relationship building skills", "Advanced emotional intelligence development", "Mental health crisis intervention", "Therapeutic communication techniques", "Advanced mindfulness and awareness practices"])
  ]),
  ("Sleep", [
    ("beginner", ["Go to bed at the same time every night", "Keep your bedroom cool and dark for better sleep", "Avoid screens 1 hour before bedtime", "Create a relaxing bedtime routine", "Use your bed only for sleep and intimacy", "Avoid caffeine after 2 PM", "Get sunlight exposure in the morning", "Keep a sleep diary to track patterns", "Avoid large meals before bedtime", "Create a comfortable sleep environment"]),
    ("intermediate", ["Sleep hygiene optimization strategies", "Circadian rhythm regulation techniques", "Sleep environment optimization", "Relaxation techniques for better sleep", "Sleep restriction therapy for insomnia", "Light therapy for sleep disorders", "Sleep tracking and analysis", "Advanced sleep hygiene practices", "Sleep debt recovery strategies", "Sleep optimization for shift workers"]),
    ("advanced", ["Advanced sleep medicine and disorders", "Sleep optimization for athletes", "Advanced circadian rhythm management", "Sleep research and monitoring techniques", "Advanced sleep disorder treatments", "Sleep optimization for performance", "Advanced sleep tracking and analysis", "Sleep medicine and pharmacology", "Advanced sleep research methods", "Sleep optimization for elite performance"])
  ]),
  ("Hydration", [
    ("beginner", ["Drink a glass of water when you wake up", "Carry a water bottle with you throughout the day", "Drink water before you feel thirsty", "Add lemon or cucumber to water for flavor", "Drink water with every meal", "Set hourly reminders to drink water", "Choose water over sugary drinks", "Drink water before, during, and after exercise", "Monitor your urine color for hydration status", "Drink herbal tea for additional hydration"]),
    ("intermediate", ["Electrolyte balance for optimal hydration", "Hydration strategies for different activities", "Water quality and filtration systems", "Hydration timing for performance", "Electrolyte supplementation strategies", "Hydration monitoring and tracking", "Advanced hydration protocols", "Hydration for different climates", "Electrolyte replacement strategies", "Hydration optimization techniques"]),
    ("advanced", ["Advanced hydration science and research", "Hydration optimization for elite athletes", "Advanced electrolyte management", "Hydration protocols for extreme conditions", "Advanced water quality analysis", "Hydration optimization for performance", "Advanced hydration monitoring", "Hydration science and physiology", "Advanced hydration strategies", "Hydration optimization for competition"])
  ]),
  ("Skincare", [
    ("beginner", ["Wash your face twice daily with gentle cleanser", "Apply sunscreen every morning", "Moisturize your skin after cleansing", "Remove makeup before going to bed", "Use lukewarm water for face washing", "Pat your skin dry instead of rubbing", "Exfoliate gently 2-3 times per week", "Use products suitable for your skin type", "Keep your hands away from your face", "Change your pillowcase regularly"]),
    ("intermediate", ["Advanced skincare routine optimization", "Understanding skin types and conditions", "Skincare ingredient analysis and selection", "Professional skincare treatments", "Advanced exfoliation techniques", "Skincare for different age groups", "Advanced moisturizing strategies", "Skincare for different skin concerns", "Advanced sun protection strategies", "Skincare routine customization"]),
    ("advanced", ["Advanced dermatological treatments", "Skincare science and research", "Advanced skincare ingredient analysis", "Professional skincare consultation", "Advanced skincare treatment protocols", "Skincare for medical conditions", "Advanced skincare technology", "Skincare research and development", "Advanced skincare treatment methods", "Skincare optimization for professionals"])
  ]),
  ("Wellness", [
    ("beginner", ["Take time for yourself every day", "Practice gratitude daily", "Connect with nature regularly", "Engage in activities you enjoy", "Maintain social connections", "Practice self-care routines", "Set boundaries in your life", "Engage in creative activities", "Practice relaxation techniques", "Maintain a positive outlook"]),
    ("intermediate", ["Holistic wellness approaches", "Wellness lifestyle integration", "Advanced self-care strategies", "Wellness goal setting and tracking", "Wellness routine optimization", "Advanced wellness practices", "Wellness for different life stages", "Wellness lifestyle design", "Advanced wellness strategies", "Wellness optimization techniques"]),
    ("advanced", ["Advanced wellness science and research", "Wellness optimization for professionals", "Advanced wellness protocols", "Wellness science and methodology", "Advanced wellness strategies", "Wellness optimization for performance", "Advanced wellness research", "Wellness science and technology", "Advanced wellness approaches", "Wellness optimization for experts"])
  ]),
  ("Digestive Health", [
    ("beginner", ["Eat slowly and chew your food thoroughly", "Include fiber-rich foods in your diet", "Drink plenty of water throughout the day", "Eat regular meals at consistent times", "Include probiotic foods in your diet", "Avoid eating too close to bedtime", "Limit processed and fried foods", "Include a variety of vegetables in meals", "Practice mindful eating", "Listen to your body's hunger cues"]),
    ("intermediate", ["Gut health optimization strategies", "Digestive enzyme supplementation", "Prebiotic and probiotic combinations", "Digestive health monitoring", "Advanced gut health protocols", "Digestive health for different conditions", "Advanced digestive strategies", "Gut health research and application", "Advanced digestive health", "Digestive health optimization"]),
    ("advanced", ["Advanced digestive health science", "Gut microbiome research and application", "Advanced digestive protocols", "Digestive health for medical conditions", "Advanced gut health strategies", "Digestive health research methods", "Advanced digestive science", "Gut health optimization for professionals", "Advanced digestive health research", "Digestive health science and technology"])
  ]),
  ("Immune System", [
    ("beginner", ["Wash your hands regularly with soap and water", "Get adequate sleep for immune function", "Eat a variety of colorful fruits and vegetables", "Stay hydrated throughout the day", "Manage stress through relaxation techniques", "Exercise regularly to boost immunity", "Avoid smoking and excessive alcohol", "Get regular sunlight exposure", "Practice good hygiene habits", "Maintain social connections for mental health"]),
    ("intermediate", ["Immune system optimization strategies", "Advanced immune support protocols", "Immune health monitoring and tracking", "Advanced immune system support", "Immune health for different age groups", "Advanced immune strategies", "Immune system research and application", "Advanced immune health protocols", "Immune health optimization techniques", "Advanced immune system science"]),
    ("advanced", ["Advanced immune system science", "Immune system research and development", "Advanced immune protocols", "Immune health for medical conditions", "Advanced immune system strategies", "Immune health research methods", "Advanced immune science", "Immune system optimization for professionals", "Advanced immune health research", "Immune system science and technology"])
  ]),
  ("Weight Management", [
    ("beginner", ["Eat regular meals to avoid overeating", "Include protein in every meal", "Drink water before meals to feel full", "Use smaller plates to control portions", "Eat slowly and savor your food", "Include vegetables in every meal", "Limit sugary drinks and snacks", "Get regular physical activity", "Track your food intake", "Set realistic weight management goals"]),
    ("intermediate", ["Advanced weight management strategies", "Metabolic optimization techniques", "Weight management for different body types", "Advanced nutrition for weight management", "Weight management monitoring and tracking", "Advanced weight management protocols", "Weight management for different life stages", "Advanced weight management strategies", "Weight management optimization techniques", "Advanced weight management science"]),
    ("advanced", ["Advanced weight management science", "Weight management research and development", "Advanced weight management protocols", "Weight management for medical conditions", "Advanced weight management strategies", "Weight management research methods", "Advanced weight management science", "Weight management optimization for professionals", "Advanced weight management research", "Weight management science and technology"])
  ])
]

/-- TopicBank.get_topics_by_category (topic_bank.py lines 403-426): the
requested difficulty bucket when the difficulty string is a key of the
category's bucket map, else the concatenation of all buckets; an unknown
category gives the empty list. -/
def get_topics_by_category (category : String) (difficulty : Option String) :
    List String :=
  match TOPIC_DATABASE.lookup category with
  | none => []
  | some category_topics =>
    match difficulty with
    | some d =>
      match category_topics.lookup d with
      | some topics => topics
      | none => (category_topics.map Prod.snd).flatten
    | none => (category_topics.map Prod.snd).flatten

lemma topic_db_bucket_keys :
    ∀ p ∈ TOPIC_DATABASE, p.2.map Prod.fst =
      ["beginner", "intermediate", "advanced"] := by
  decide

lemma topic_db_union_ne_nil :
    ∀ p ∈ TOPIC_DATABASE, (p.2.map Prod.snd).flatten ≠ [] := by
  decide

lemma lookup_mem_of_mem_keys {α : Type} (l : List (String × α)) (cat : String)
    (h : cat ∈ l.map Prod.fst) :
    ∃ v, l.lookup cat = some v ∧ (cat, v) ∈ l := by
  induction l with
  | nil => simp at h
  | cons hd tl ih =>
    obtain ⟨c0, v0⟩ := hd
    by_cases hc : cat = c0
    · subst hc
      refine ⟨v0, ?_, by simp⟩
      simp [List.lookup]
    · have hmem : cat ∈ tl.map Prod.fst := by
        rw [List.map_cons, List.mem_cons] at h
        rcases h with h1 | h1
        · exact absurd h1 hc
        · exact h1
      obtain ⟨v, hv, hm⟩ := ih hmem
      refine ⟨v, ?_, List.mem_cons_of_mem _ hm⟩
      simp only [List.lookup]
      rw [show (cat == c0) = false from beq_eq_false_iff_ne.mpr hc]
      exact hv

lemma lookup_eq_none_of_not_mem_keys {α : Type} (l : List (String × α))
    (d : String) (h : d ∉ l.map Prod.fst) : l.lookup d = none := by
  induction l with
  | nil => rfl
  | cons hd tl ih =>
    obtain ⟨c0, v0⟩ := hd
    have hne : d ≠ c0 := by
      intro hdc
      exact h (by simp [hdc])
    simp only [List.lookup]
    rw [show (d == c0) = false from beq_eq_false_iff_ne.mpr hne]
    exact ih (fun hm => h (by simp [hm]))

/-- C9: for a known category, an unrecognized difficulty string degrades to
no filter: the result equals the all-difficulties union (the same list the
difficulty-omitted call returns), which is non-empty — not the empty
list. -/
theorem topics_unknown_difficulty_degrades (category : String) (d : String)
    (hcat : category ∈ TOPIC_DATABASE.map Prod.fst)
    (hd : d ∉ ["beginner", "intermediate", "advanced"]) :
    get_topics_by_category category (some d) =
      get_topics_by_category category none ∧
    get_topics_by_category category none ≠ [] := by
  obtain ⟨buckets, hlook, hmem⟩ := lookup_mem_of_mem_keys TOPIC_DATABASE category hcat
  have hkeys := topic_db_bucket_keys _ hmem
  have hdn : buckets.lookup d = none := by
    refine lookup_eq_none_of_not_mem_keys _ _ ?_
    rw [hkeys]
    exact hd
  constructor
  · simp only [get_topics_by_category, hlook, hdn]
  · simp only [get_topics_by_category, hlook]
    exact topic_db_union_ne_nil _ hmem

/-- Concrete instantiation of the C9 theorem at the Fitness category and
the unrecognized difficulty string tried by callers. -/
theorem topics_unknown_difficulty_degrades_witness :
    get_topics_by_category "Fitness" (some "expert") =
      get_topics_by_category "Fitness" none ∧
    get_topics_by_category "Fitness" none ≠ [] :=
  topics_unknown_difficulty_degrades "Fitness" "expert" (by decide) (by decide)

/-- The dict returned by SmartTopicSelector.select_optimal_topic
(smart_selector.py lines 26-75). -/
structure SelectionResult where
  topic : String
  category : String
  difficulty : String
  confidence : ℚ
deriving DecidableEq, Repr

/-- One content slot of the calendar
(ContentCalendar._generate_content_piece return value). -/
structure ContentPiece where
  index : Nat
  topic : String
  category : String
  difficulty : String
  confidence : ℚ
  diversity_score : ℚ
deriving DecidableEq, Repr

/-- The category key list of the bank, TopicBank.categories. -/
def topicBankCategories : List String :=
  TOPIC_DATABASE.map Prod.fst

/-- random.choice from a list, fed by an injected pick index (empty lists
are always guarded in the source before the call). -/
def choiceIdx (l : List String) (i : Nat) : String :=
  l.getD (i % l.length) ""

/-- TopicBank.get_random_topic (topic_bank.py lines 428-450) with the two
random draws (category, topic) fed by injected pick indices. -/
def get_random_topic (catPick topicPick : Nat) (category : Option String)
    (difficulty : Option String) : String :=
  let cat := match category with
    | some c => c
    | none => choiceIdx topicBankCategories catPick
  let topics := get_topics_by_category cat difficulty
  if topics.isEmpty then "General health and wellness tips"
  else choiceIdx topics topicPick

/-- ContentCalendar._calculate_piece_diversity (content_calendar.py lines
102-117): one minus the maximum similarity to the 30-day history window,
with maximum 0 for an empty window. -/
def calc_piece_diversity (recent : List ContentRecord) (topic : String) : ℚ :=
  1 - maxDefault0 (recent.map (fun c => calculate_topic_similarity topic c.topic))

/-- ContentCalendar._generate_content_piece (content_calendar.py lines
82-100): invokes the selector (modelled as the injected stream select at
the slot counter k), then draws a fresh topic from the bank at the
selected category and difficulty, and scores that drawn topic. -/
def generate_content_piece (select : Nat → SelectionResult)
    (pick : Nat → Nat) (recent : List ContentRecord)
    (k index : Nat) : ContentPiece :=
  let selection_result := select k
  let topic := get_random_topic 0 (pick k) (some selection_result.category)
    (some selection_result.difficulty)
  { index := index + 1
    topic := topic
    category := selection_result.category
    difficulty := selection_result.difficulty
    confidence := selection_result.confidence
    diversity_score := calc_piece_diversity recent topic }

/-- ContentCalendar._generate_daily_content (content_calendar.py lines
67-80); k0 is the slot counter at the start of the day (the date fields
carry no information used by any claim and are dropped). -/
def generate_daily_content (select : Nat → SelectionResult)
    (pick : Nat → Nat) (recent : List ContentRecord)
    (k0 count : Nat) : List ContentPiece :=
  (List.range count).map
    (fun i => generate_content_piece select pick recent (k0 + i) i)

/-- ContentCalendar.generate_content_calendar (content_calendar.py lines
31-80), reduced to its daily_schedule of content pieces. -/
def generate_content_calendar (select : Nat → SelectionResult)
    (pick : Nat → Nat) (recent : List ContentRecord)
    (days content_per_day : Nat) : List (List ContentPiece) :=
  (List.range days).map
    (fun day => generate_daily_content select pick recent
      (day * content_per_day) content_per_day)

/-- C3 amended: the calendar has exactly days entries of exactly
content_per_day pieces; each slot's category, difficulty and confidence
are those of the TopicCandidate returned by the slot's TopicSelector
invocation, but the slot's topic is a fresh random draw from the topic
bank at that category and difficulty (not the candidate's own topic), and
the slot's diversity score is 1 minus the maximum similarity of the drawn
topic to the 30-day history (1 when the window is empty). -/
theorem calendar_structure_amended (select : Nat → SelectionResult)
    (pick : Nat → Nat) (recent : List ContentRecord)
    (days content_per_day : Nat) :
    (generate_content_calendar select pick recent days content_per_day).length
      = days ∧
    (∀ daily ∈ generate_content_calendar select pick recent days content_per_day,
      daily.length = content_per_day) ∧
    (∀ day i, day < days → i < content_per_day →
      ∃ piece,
        ((generate_content_calendar select pick recent days
            content_per_day)[day]?.bind (fun daily => daily[i]?)) = some piece ∧
        piece.category = (select (day * content_per_day + i)).category ∧
        piece.difficulty = (select (day * content_per_day + i)).difficulty ∧
        piece.confidence = (select (day * content_per_day + i)).confidence ∧
        piece.topic = get_random_topic 0 (pick (day * content_per_day + i))
          (some (select (day * content_per_day + i)).category)
          (some (select (day * content_per_day + i)).difficulty) ∧
        piece.diversity_score = 1 - maxDefault0 (recent.map (fun c =>
          calculate_topic_similarity piece.topic c.topic))) ∧
    (recent = [] →
      ∀ daily ∈ generate_content_calendar select pick recent days content_per_day,
        ∀ piece ∈ daily, piece.diversity_score = 1) := by
  refine ⟨?_, ?_, ?_, ?_⟩
  · simp [generate_content_calendar]
  · intro daily hd
    obtain ⟨day, -, rfl⟩ := List.mem_map.mp hd
    simp [generate_daily_content]
  · intro day i hday hi
    refine ⟨generate_content_piece select pick recent
      (day * content_per_day + i) i, ?_, rfl, rfl, rfl, rfl, rfl⟩
    rw [generate_content_calendar, List.getElem?_map, List.getElem?_range hday]
    show (generate_daily_content select pick recent
      (day * content_per_day) content_per_day)[i]? = _
    rw [generate_daily_content, List.getElem?_map, List.getElem?_range hi]
    rfl
  · intro h daily hd piece hp
    subst h
    obtain ⟨day, -, rfl⟩ := List.mem_map.mp hd
    obtain ⟨i, -, rfl⟩ := List.mem_map.mp hp
    show calc_piece_diversity [] _ = 1
    rw [calc_piece_diversity]
    show 1 - maxDefault0 [] = 1
    rw [show maxDefault0 [] = 0 from rfl, sub_zero]

/-- A selector outcome reachable on an empty history: the first beginner
Fitness topic with full confidence. -/
def calendarSelectStub : Nat → SelectionResult :=
  fun _ => ⟨"Take a 10-minute walk after every meal", "Fitness", "beginner", 1⟩

/-- A pick stream whose topic draw lands on index 1 of the bucket. -/
def calendarPickStub : Nat → Nat :=
  fun _ => 1

/-- C3 as stated is false: the slot topic is not the TopicCandidate's
topic.  With the candidate topic being the first beginner Fitness topic
and the bank draw landing on index 1 of the same bucket, the generated
slot holds a different topic string. -/
theorem calendar_slot_topic_counterexample :
    (calendarSelectStub 0).topic = "Take a 10-minute walk after every meal" ∧
    (generate_content_calendar calendarSelectStub calendarPickStub [] 1 1).map
        (fun daily => daily.map (fun piece => piece.topic)) =
      [["Do 20 squats every morning to start your day"]] ∧
    ("Do 20 squats every morning to start your day" : String) ≠
      "Take a 10-minute walk after every meal" := by
  refine ⟨rfl, ?_, by decide⟩
  rfl

/-- Concrete instantiation of the C3 amended theorem: a one-day, one-piece
calendar over an empty history, with the slot bound hypotheses and the
empty-history hypothesis discharged. -/
theorem calendar_structure_amended_witness :
    (generate_content_calendar calendarSelectStub calendarPickStub [] 1 1).length
      = 1 ∧
    (∀ daily ∈ generate_content_calendar calendarSelectStub calendarPickStub
      [] 1 1, daily.length = 1) ∧
    (∃ piece,
      ((generate_content_calendar calendarSelectStub calendarPickStub
          [] 1 1)[0]?.bind (fun daily => daily[0]?)) = some piece ∧
      piece.category = "Fitness") ∧
    (∀ daily ∈ generate_content_calendar calendarSelectStub calendarPickStub
      [] 1 1, ∀ piece ∈ daily, piece.diversity_score = 1) := by
  refine ⟨(calendar_structure_amended calendarSelectStub calendarPickStub
      [] 1 1).1,
    (calendar_structure_amended calendarSelectStub calendarPickStub [] 1 1).2.1,
    ?_,
    (calendar_structure_amended calendarSelectStub calendarPickStub
      [] 1 1).2.2.2 rfl⟩
  obtain ⟨piece, heq, hcat, -⟩ :=
    (calendar_structure_amended calendarSelectStub calendarPickStub
      [] 1 1).2.2.1 0 0 (by decide) (by decide)
  exact ⟨piece, heq, hcat⟩

/-- TopicBank.difficulty_levels. -/
def difficulty_levels : List String :=
  ["beginner", "intermediate", "advanced"]

/-- The candidate category list of TopicBank.get_diverse_topics
(topic_bank.py lines 523-529): categories not excluded, falling back to
all categories when the exclusion empties the list. -/
def diverseAvailableCategories (exclude : List String) : List String :=
  if (topicBankCategories.filter (fun c => decide (c ∉ exclude))).isEmpty then
    topicBankCategories
  else topicBankCategories.filter (fun c => decide (c ∉ exclude))

/-- State of the while loop of TopicBank.get_diverse_topics: the
accumulated (topic, category, difficulty) entries and the used
(category, difficulty) combinations. -/
structure DiverseTopicsState where
  diverse_topics : List (String × String × String)
  used_combinations : List (String × String)
deriving DecidableEq, Repr

/-- The (category, difficulty) pair drawn at loop iteration n, fed by the
injected pick streams. -/
def dtDraw (pickCat pickDiff : Nat → Nat) (avail : List String)
    (n : Nat) : String × String :=
  (choiceIdx avail (pickCat n), choiceIdx difficulty_levels (pickDiff n))

/-- One iteration body of the while loop of TopicBank.get_diverse_topics
(topic_bank.py lines 534-548): an already-used combination changes
nothing; a fresh one is recorded, and when its bucket is non-empty a
topic drawn from it is appended. -/
def dtStep (pickCat pickDiff pickTopic : Nat → Nat) (avail : List String)
    (n : Nat) (s : DiverseTopicsState) : DiverseTopicsState :=
  if dtDraw pickCat pickDiff avail n ∈ s.used_combinations then s
  else if (get_topics_by_category (dtDraw pickCat pickDiff avail n).1
      (some (dtDraw pickCat pickDiff avail n).2)).isEmpty then
    { s with used_combinations :=
        s.used_combinations ++ [dtDraw pickCat pickDiff avail n] }
  else
    { diverse_topics := s.diverse_topics ++
        [(choiceIdx (get_topics_by_category (dtDraw pickCat pickDiff avail n).1
            (some (dtDraw pickCat pickDiff avail n).2)) (pickTopic n),
          (dtDraw pickCat pickDiff avail n).1,
          (dtDraw pickCat pickDiff avail n).2)],
      used_combinations :=
        s.used_combinations ++ [dtDraw pickCat pickDiff avail n] }

/-- The while condition of TopicBank.get_diverse_topics (line 534). -/
def dtGuard (count : Nat) (avail : List String)
    (s : DiverseTopicsState) : Bool :=
  decide (s.diverse_topics.length < count) &&
    decide (s.used_combinations.length < avail.length * 3)

/-- Fuel-indexed trace of the while loop of
TopicBank.get_diverse_topics: runs at most fuel iterations starting at
stream index k, stopping as soon as the guard fails. -/
def dtRun (pickCat pickDiff pickTopic : Nat → Nat) (count : Nat)
    (avail : List String) : Nat → Nat → DiverseTopicsState → DiverseTopicsState
  | _, 0, s => s
  | k, fuel+1, s =>
    if dtGuard count avail s then
      dtRun pickCat pickDiff pickTopic count avail (k+1) fuel
        (dtStep pickCat pickDiff pickTopic avail k s)
    else s

/-- TopicBank.get_diverse_topics (topic_bank.py lines 512-550), as the
entries accumulated by the loop trace after fuel iterations. -/
def get_diverse_topics (pickCat pickDiff pickTopic : Nat → Nat)
    (count : Nat) (exclude : List String) (fuel : Nat) :
    List (String × String × String) :=
  (dtRun pickCat pickDiff pickTopic count (diverseAvailableCategories exclude)
    0 fuel ⟨[], []⟩).diverse_topics

lemma dtStep_used_mono (pickCat pickDiff pickTopic : Nat → Nat)
    (avail : List String) (n : Nat) (s : DiverseTopicsState) :
    s.used_combinations ⊆
      (dtStep pickCat pickDiff pickTopic avail n s).used_combinations := by
  unfold dtStep
  split
  · exact fun x hx => hx
  · split
    · exact fun x hx => List.mem_append_left _ hx
    · exact fun x hx => List.mem_append_left _ hx

lemma dtStep_draw_mem (pickCat pickDiff pickTopic : Nat → Nat)
    (avail : List String) (n : Nat) (s : DiverseTopicsState) :
    dtDraw pickCat pickDiff avail n ∈
      (dtStep pickCat pickDiff pickTopic avail n s).used_combinations := by
  unfold dtStep
  split
  · next h => exact h
  · split
    · exact List.mem_append_right _ (List.mem_singleton.mpr rfl)
    · exact List.mem_append_right _ (List.mem_singleton.mpr rfl)

lemma dtStep_len_le (pickCat pickDiff pickTopic : Nat → Nat)
    (avail : List String) (n : Nat) (s : DiverseTopicsState) :
    (dtStep pickCat pickDiff pickTopic avail n s).diverse_topics.length ≤
      s.diverse_topics.length + 1 := by
  unfold dtStep
  split
  · omega
  · split
    · simp
    · simp

lemma dtStep_pairs (pickCat pickDiff pickTopic : Nat → Nat)
    (avail : List String) (n : Nat) (s : DiverseTopicsState)
    (hnd : (s.diverse_topics.map (fun e => (e.2.1, e.2.2))).Nodup)
    (hsub : ∀ e ∈ s.diverse_topics, (e.2.1, e.2.2) ∈ s.used_combinations) :
    ((dtStep pickCat pickDiff pickTopic avail n s).diverse_topics.map
      (fun e => (e.2.1, e.2.2))).Nodup ∧
    (∀ e ∈ (dtStep pickCat pickDiff pickTopic avail n s).diverse_topics,
      (e.2.1, e.2.2) ∈
        (dtStep pickCat pickDiff pickTopic avail n s).used_combinations) := by
  unfold dtStep
  split
  · exact ⟨hnd, hsub⟩
  · next hfresh =>
    split
    · refine ⟨hnd, fun e he => List.mem_append_left _ (hsub e he)⟩
    · constructor
      · rw [List.map_append, List.nodup_append]
        refine ⟨hnd, List.nodup_singleton _, ?_⟩
        intro x hx hx2
        simp only [List.map_cons, List.map_nil, List.mem_singleton] at hx2
        subst hx2
        obtain ⟨e, he, hpe⟩ := List.mem_map.mp hx
        refine hfresh ?_
        have heq : (e.2.1, e.2.2) = dtDraw pickCat pickDiff avail n :=
          hpe.trans Prod.mk.eta
        rw [← heq]
        exact hsub e he
      · intro e he
        rcases List.mem_append.mp he with he1 | he1
        · exact List.mem_append_left _ (hsub e he1)
        · rw [List.mem_singleton] at he1
          subst he1
          exact List.mem_append_right _ (List.mem_singleton.mpr rfl)

lemma dtRun_succ (pickCat pickDiff pickTopic : Nat → Nat) (count : Nat)
    (avail : List String) (k fuel : Nat) (s : DiverseTopicsState) :
    dtRun pickCat pickDiff pickTopic count avail k (fuel+1) s =
      (if dtGuard count avail s then
        dtRun pickCat pickDiff pickTopic count avail (k+1) fuel
          (dtStep pickCat pickDiff pickTopic avail k s)
      else s) :=
  rfl

lemma dtRun_guard_false (pickCat pickDiff pickTopic : Nat → Nat) (count : Nat)
    (avail : List String) (k fuel : Nat) (s : DiverseTopicsState)
    (h : dtGuard count avail s = false) :
    dtRun pickCat pickDiff pickTopic count avail k fuel s = s := by
  cases fuel with
  | zero => rfl
  | succ fuel =>
    rw [dtRun_succ, if_neg]
    simp [h]

lemma dtRun_add (pickCat pickDiff pickTopic : Nat → Nat) (count : Nat)
    (avail : List String) (a : Nat) :
    ∀ (k b : Nat) (s : DiverseTopicsState),
      dtRun pickCat pickDiff pickTopic count avail k (a + b) s =
        dtRun pickCat pickDiff pickTopic count avail (k + a) b
          (dtRun pickCat pickDiff pickTopic count avail k a s) := by
  induction a with
  | zero =>
    intro k b s
    simp [dtRun]
  | succ a ih =>
    intro k b s
    rw [show a + 1 + b = (a + b) + 1 from by omega]
    by_cases hg : dtGuard count avail s = true
    · rw [dtRun_succ, if_pos hg]
      rw [show dtRun pickCat pickDiff pickTopic count avail k (a+1) s =
        dtRun pickCat pickDiff pickTopic count avail (k+1) a
          (dtStep pickCat pickDiff pickTopic avail k s) from by
          rw [dtRun_succ, if_pos hg]]
      rw [ih (k+1) b]
      rw [show k + 1 + a = k + (a + 1) from by omega]
    · rw [Bool.not_eq_true] at hg
      rw [dtRun_succ, if_neg (by simp [hg])]
      rw [dtRun_guard_false _ _ _ _ _ _ _ _ hg,
        dtRun_guard_false _ _ _ _ _ _ _ _ hg]

lemma dtRun_used_mono (pickCat pickDiff pickTopic : Nat → Nat) (count : Nat)
    (avail : List String) (fuel : Nat) :
    ∀ (k : Nat) (s : DiverseTopicsState),
      s.used_combinations ⊆
        (dtRun pickCat pickDiff pickTopic count avail k fuel s).used_combinations := by
  induction fuel with
  | zero => exact fun k s x hx => hx
  | succ fuel ih =>
    intro k s
    rw [dtRun_succ]
    split
    · exact fun x hx =>
        ih (k+1) (dtStep pickCat pickDiff pickTopic avail k s)
          (dtStep_used_mono pickCat pickDiff pickTopic avail k s hx)
    · exact fun x hx => hx

lemma dtRun_inv (pickCat pickDiff pickTopic : Nat → Nat) (count : Nat)
    (avail : List String) (fuel : Nat) :
    ∀ (k : Nat) (s : DiverseTopicsState),
      (s.diverse_topics.map (fun e => (e.2.1, e.2.2))).Nodup →
      (∀ e ∈ s.diverse_topics, (e.2.1, e.2.2) ∈ s.used_combinations) →
      s.diverse_topics.length ≤ count →
      (((dtRun pickCat pickDiff pickTopic count avail k fuel s).diverse_topics.map
          (fun e => (e.2.1, e.2.2))).Nodup ∧
        (dtRun pickCat pickDiff pickTopic count avail k fuel s).diverse_topics.length
          ≤ count) := by
  induction fuel with
  | zero => exact fun k s h1 h2 h3 => ⟨h1, h3⟩
  | succ fuel ih =>
    intro k s h1 h2 h3
    rw [dtRun_succ]
    split
    · next hg =>
      have hlen : s.diverse_topics.length < count := by
        have := (Bool.and_eq_true _ _).mp hg
        exact of_decide_eq_true this.1
      obtain ⟨h1s, h2s⟩ := dtStep_pairs pickCat pickDiff pickTopic avail k s h1 h2
      refine ih (k+1) _ h1s h2s ?_
      calc (dtStep pickCat pickDiff pickTopic avail k s).diverse_topics.length
          ≤ s.diverse_topics.length + 1 :=
            dtStep_len_le pickCat pickDiff pickTopic avail k s
        _ ≤ count := hlen
    · exact ⟨h1, h3⟩

lemma diverseAvailableCategories_nodup (exclude : List String) :
    (diverseAvailableCategories exclude).Nodup := by
  have hnd : topicBankCategories.Nodup := by decide
  unfold diverseAvailableCategories
  split
  · exact hnd
  · exact hnd.filter _

lemma dtRun_drawn_in_used (pickCat pickDiff pickTopic : Nat → Nat)
    (count : Nat) (avail : List String) (M i : Nat) (hi : i < M)
    (hg : dtGuard count avail
      (dtRun pickCat pickDiff pickTopic count avail 0 M ⟨[], []⟩) = true) :
    dtDraw pickCat pickDiff avail i ∈
      (dtRun pickCat pickDiff pickTopic count avail 0 M
        ⟨[], []⟩).used_combinations := by
  have hgi : dtGuard count avail
      (dtRun pickCat pickDiff pickTopic count avail 0 i ⟨[], []⟩) = true := by
    by_contra hne
    rw [Bool.not_eq_true] at hne
    have hsplit : dtRun pickCat pickDiff pickTopic count avail 0 M ⟨[], []⟩ =
        dtRun pickCat pickDiff pickTopic count avail (0 + i) (M - i)
          (dtRun pickCat pickDiff pickTopic count avail 0 i ⟨[], []⟩) := by
      have h := dtRun_add pickCat pickDiff pickTopic count avail i 0 (M - i)
        ⟨[], []⟩
      rw [show i + (M - i) = M from by omega] at h
      exact h
    rw [hsplit,
      dtRun_guard_false pickCat pickDiff pickTopic count avail _ _ _ hne] at hg
    rw [hg] at hne
    cases hne
  have hstep1 : dtRun pickCat pickDiff pickTopic count avail 0 (i+1) ⟨[], []⟩ =
      dtStep pickCat pickDiff pickTopic avail i
        (dtRun pickCat pickDiff pickTopic count avail 0 i ⟨[], []⟩) := by
    have h := dtRun_add pickCat pickDiff pickTopic count avail i 0 1 ⟨[], []⟩
    rw [show i + 1 = i + 1 from rfl] at h
    rw [h]
    simp only [Nat.zero_add]
    rw [dtRun_succ, if_pos hgi]
    rfl
  have hmem1 : dtDraw pickCat pickDiff avail i ∈
      (dtRun pickCat pickDiff pickTopic count avail 0 (i+1)
        ⟨[], []⟩).used_combinations := by
    rw [hstep1]
    exact dtStep_draw_mem pickCat pickDiff pickTopic avail i _
  have hsplit2 : dtRun pickCat pickDiff pickTopic count avail 0 M ⟨[], []⟩ =
      dtRun pickCat pickDiff pickTopic count avail (0 + (i+1)) (M - (i+1))
        (dtRun pickCat pickDiff pickTopic count avail 0 (i+1) ⟨[], []⟩) := by
    have h := dtRun_add pickCat pickDiff pickTopic count avail (i+1) 0 (M - (i+1))
      ⟨[], []⟩
    rw [show i + 1 + (M - (i+1)) = M from by omega] at h
    exact h
  rw [hsplit2]
  exact dtRun_used_mono pickCat pickDiff pickTopic count avail (M - (i+1)) _ _
    hmem1

/-- C10: over any pick streams, the loop trace of get_diverse_topics never
accumulates more than count entries, never holds two entries with the same
(category, difficulty) pair, and terminates: as soon as the first M draws
cover every available (category, difficulty) combination — which a random
stream does with probability 1 — the while condition is off after at most
M iterations. -/
theorem get_diverse_topics_invariants (pickCat pickDiff pickTopic : Nat → Nat)
    (exclude : List String) (count : Nat) :
    (∀ fuel,
      (get_diverse_topics pickCat pickDiff pickTopic count exclude fuel).length
        ≤ count) ∧
    (∀ fuel,
      ((get_diverse_topics pickCat pickDiff pickTopic count exclude fuel).map
        (fun e => (e.2.1, e.2.2))).Nodup) ∧
    (∀ M, (∀ c ∈ diverseAvailableCategories exclude, ∀ d ∈ difficulty_levels,
        ∃ i ∈ List.range M,
          dtDraw pickCat pickDiff (diverseAvailableCategories exclude) i = (c, d)) →
      dtGuard count (diverseAvailableCategories exclude)
        (dtRun pickCat pickDiff pickTopic count
          (diverseAvailableCategories exclude) 0 M ⟨[], []⟩) = false) := by
  refine ⟨?_, ?_, ?_⟩
  · intro fuel
    exact (dtRun_inv pickCat pickDiff pickTopic count
      (diverseAvailableCategories exclude) fuel 0 ⟨[], []⟩ (by simp) (by simp)
      (by simp)).2
  · intro fuel
    exact (dtRun_inv pickCat pickDiff pickTopic count
      (diverseAvailableCategories exclude) fuel 0 ⟨[], []⟩ (by simp) (by simp)
      (by simp)).1
  · intro M hcov
    by_contra hne
    rw [Bool.not_eq_false] at hne
    have hlen : (dtRun pickCat pickDiff pickTopic count
        (diverseAvailableCategories exclude) 0 M
        ⟨[], []⟩).used_combinations.length <
          (diverseAvailableCategories exclude).length * 3 := by
      have h := (Bool.and_eq_true _ _).mp hne
      exact of_decide_eq_true h.2
    have hall : ∀ c ∈ diverseAvailableCategories exclude,
        ∀ d ∈ difficulty_levels,
        (c, d) ∈ (dtRun pickCat pickDiff pickTopic count
          (diverseAvailableCategories exclude) 0 M
          ⟨[], []⟩).used_combinations := by
      intro c hc d hd
      obtain ⟨i, hiM, hdraw⟩ := hcov c hc d hd
      rw [List.mem_range] at hiM
      have h := dtRun_drawn_in_used pickCat pickDiff pickTopic count
        (diverseAvailableCategories exclude) M i hiM hne
      rwa [hdraw] at h
    have hndavail := diverseAvailableCategories_nodup exclude
    have hsubF : (diverseAvailableCategories exclude).toFinset ×ˢ
        difficulty_levels.toFinset ⊆
        (dtRun pickCat pickDiff pickTopic count
          (diverseAvailableCategories exclude) 0 M
          ⟨[], []⟩).used_combinations.toFinset := by
      intro x hx
      rw [Finset.mem_product] at hx
      have h := hall x.1 (List.mem_toFinset.mp hx.1) x.2
        (List.mem_toFinset.mp hx.2)
      rw [List.mem_toFinset]
      rw [Prod.mk.eta] at h
      exact h
    have hcard1 : ((diverseAvailableCategories exclude).toFinset ×ˢ
        difficulty_levels.toFinset).card =
        (diverseAvailableCategories exclude).length * 3 := by
      rw [Finset.card_product, List.toFinset_card_of_nodup hndavail,
        List.toFinset_card_of_nodup (by decide : difficulty_levels.Nodup)]
      rfl
    have hle1 := Finset.card_le_card hsubF
    have hle2 := List.toFinset_card_le
      (dtRun pickCat pickDiff pickTopic count
        (diverseAvailableCategories exclude) 0 M ⟨[], []⟩).used_combinations
    omega

/-- Concrete instantiation of the C10 theorem: a pick stream that
enumerates all 30 (category, difficulty) combinations within the first 30
iterations switches the while condition off by fuel 30, and the invariants
hold at that fuel. -/
theorem get_diverse_topics_invariants_witness :
    (get_diverse_topics (fun n => n / 3) (fun n => n % 3) (fun n => n)
      5 [] 30).length ≤ 5 ∧
    dtGuard 5 (diverseAvailableCategories [])
      (dtRun (fun n => n / 3) (fun n => n % 3) (fun n => n) 5
        (diverseAvailableCategories []) 0 30 ⟨[], []⟩) = false := by
  refine ⟨(get_diverse_topics_invariants (fun n => n / 3) (fun n => n % 3)
    (fun n => n) [] 5).1 30, ?_⟩
  exact (get_diverse_topics_invariants (fun n => n / 3) (fun n => n % 3)
    (fun n => n) [] 5).2.2 30 (by decide)
